import Mathlib

/-!
Shallow embedding of the `southglos_bins` Home Assistant integration
(files `api.py`, `coordinator.py`, `const.py`).

Conventions of the embedding:
* Python `date` objects are `Date` (a year/month/day triple); Python `datetime`
  objects are `DateTime` (a `Date` plus a second-of-day).  Chronological
  comparison of valid dates is comparison of `Date.key`.
* Python dicts keyed by strings are association lists (`SDict`) with Python
  dict semantics: assignment to an existing key overwrites in place, a new
  key is appended; iteration order is insertion order.
* A JSON string field of a record is `Option (Option String)`: `none` means
  the key is absent, `some none` means the key is present with value `null`,
  `some (some s)` means a string value.  `jget` models `d.get(k)` and
  `jgetD` models `d.get(k, default)`.
* Network transport is a `RemoteResult` argument: `clientError` stands for an
  `aiohttp.ClientError` (timeout, DNS failure, `raise_for_status` on a
  non-2xx response); `ok` carries the decoded JSON body.
* Raised exceptions become `Except` errors: `ApiError.southGlosBinsAPIError`
  is the wrapped transport error; `ApiError.attributeError` is an uncaught
  Python `AttributeError` (e.g. `None.lower()`).
* `date.today()` / `datetime.now()` become explicit `today` / `now`
  parameters.
-/

namespace SouthGlos

/-! ## Dates and times -/

/-- A Python `datetime.date`: calendar year, month, day. -/
structure Date where
  year : Nat
  month : Nat
  day : Nat
deriving DecidableEq, Repr

/-- Numeric key of a date; on valid dates (`month ≤ 12`, `day ≤ 31`) ordering
of keys is chronological ordering, which is how Python compares `date`s. -/
def Date.key (d : Date) : Nat :=
  d.year * 10000 + d.month * 100 + d.day

/-- A Python `datetime.datetime`: a date plus a second-of-day. -/
structure DateTime where
  date : Date
  secondOfDay : Nat
deriving DecidableEq, Repr

/-! ## String-keyed dictionaries (Python `dict` semantics) -/

/-- A Python dict with string keys, as an association list in insertion
order. -/
abbrev SDict (α : Type) := List (String × α)

/-- `d[k] = v`: overwrite in place if the key exists, append otherwise. -/
def dinsert {α : Type} (m : SDict α) (k : String) (v : α) : SDict α :=
  if m.any (fun p => p.1 == k) then
    m.map (fun p => if p.1 == k then (k, v) else p)
  else
    m ++ [(k, v)]

/-- `d.get(k)`: the value at the key, if present. -/
def dget {α : Type} (m : SDict α) (k : String) : Option α :=
  (m.find? (fun p => p.1 == k)).map Prod.snd

/-- `k in d`. -/
def dmem {α : Type} (m : SDict α) (k : String) : Bool :=
  m.any (fun p => p.1 == k)

/-- `d.keys()`, in insertion order. -/
def dkeys {α : Type} (m : SDict α) : List String :=
  m.map Prod.fst

/-! ## JSON field access -/

/-- `d.get(k)` on a JSON string field: an absent key and a `null` value both
give Python `None`. -/
def jget (v : Option (Option String)) : Option String :=
  match v with
  | none => none
  | some x => x

/-- `d.get(k, default)` on a JSON string field: the default replaces an
absent key but not a `null` value. -/
def jgetD (v : Option (Option String)) (default : String) : Option String :=
  match v with
  | none => some default
  | some x => x

/-- Python truthiness of a `str | None` value: `None` and `""` are falsy. -/
def truthyStr (v : Option String) : Bool :=
  match v with
  | none => false
  | some s => decide (s ≠ "")

/-- `s.lower()`: character-wise lowercasing (stated structurally over the
character list). -/
def strLower (s : String) : String :=
  ⟨s.data.map Char.toLower⟩

/-! ## ISO-8601 parsing

Models `datetime.fromisoformat` on the shapes this service emits: a
`YYYY-MM-DD` date, optionally followed by `T` or a space and a `HH:MM:SS`
time; any remaining suffix (a UTC offset such as `+01:00`) is accepted and
ignored, since the code immediately drops it (`dt.date()`) or never reads
it.  Invalid input gives `none`, standing for the `ValueError` that
`_parse_datetime` catches. -/

/-- Value of a decimal digit character. -/
def digitVal (c : Char) : Option Nat :=
  if c.isDigit then some (c.toNat - 48) else none

/-- `s.replace('Z', '+00:00')` at the character level. -/
def replaceZ : List Char → List Char
  | [] => []
  | c :: rest =>
    if c = 'Z' then
      '+' :: '0' :: '0' :: ':' :: '0' :: '0' :: replaceZ rest
    else
      c :: replaceZ rest

/-- Days in a month, with Gregorian leap years, as Python `date` validates. -/
def daysInMonth (y m : Nat) : Nat :=
  if m = 2 then
    if y % 4 = 0 ∧ (y % 100 ≠ 0 ∨ y % 400 = 0) then 29 else 28
  else if m = 4 ∨ m = 6 ∨ m = 9 ∨ m = 11 then 30
  else 31

/-- Parse the optional time part after the date: empty means midnight;
otherwise a `T` or space separator and `HH:MM:SS`, any suffix ignored. -/
def parseTimePart : List Char → Option Nat
  | [] => some 0
  | sep :: rest =>
    if sep = 'T' ∨ sep = ' ' then
      match rest with
      | h1 :: h2 :: c1 :: m1 :: m2 :: c2 :: s1 :: s2 :: _ =>
        match digitVal h1, digitVal h2, digitVal m1, digitVal m2,
              digitVal s1, digitVal s2 with
        | some a, some b, some c, some d, some e, some f =>
          let hh := a * 10 + b
          let mm := c * 10 + d
          let ss := e * 10 + f
          if c1 = ':' ∧ c2 = ':' ∧ hh < 24 ∧ mm < 60 ∧ ss < 60 then
            some (hh * 3600 + mm * 60 + ss)
          else none
        | _, _, _, _, _, _ => none
      | _ => none
    else none

/-- `datetime.fromisoformat` (see the section comment). -/
def fromisoformat (cs : List Char) : Option DateTime :=
  match cs with
  | y1 :: y2 :: y3 :: y4 :: c1 :: mo1 :: mo2 :: c2 :: d1 :: d2 :: rest =>
    match digitVal y1, digitVal y2, digitVal y3, digitVal y4,
          digitVal mo1, digitVal mo2, digitVal d1, digitVal d2 with
    | some a, some b, some c, some d, some e, some f, some g, some h =>
      let y := a * 1000 + b * 100 + c * 10 + d
      let m := e * 10 + f
      let dd := g * 10 + h
      if c1 = '-' ∧ c2 = '-' ∧ 1 ≤ m ∧ m ≤ 12 ∧ 1 ≤ dd ∧ dd ≤ daysInMonth y m then
        (parseTimePart rest).map (fun t => ⟨⟨y, m, dd⟩, t⟩)
      else none
    | _, _, _, _, _, _, _, _ => none
  | _ => none

/-- `SouthGlosBinsAPI._parse_datetime`: `None` or `""` give `None`; otherwise
parse after replacing a trailing `Z`, keep the date part, and degrade any
parse failure to `None` (the caught `ValueError`). -/
def parse_datetime (date_str : Option String) : Option Date :=
  match date_str with
  | none => none
  | some s =>
    if s = "" then none
    else (fromisoformat (replaceZ s.data)).map DateTime.date

/-- `SouthGlosBinsAPI._parse_datetime_full`: like `parse_datetime` but keeps
the full timestamp. -/
def parse_datetime_full (date_str : Option String) : Option DateTime :=
  match date_str with
  | none => none
  | some s =>
    if s = "" then none
    else fromisoformat (replaceZ s.data)

/-! ## `api.py` data model -/

/-- One service record of the collections endpoint response (`value` array
element); every field is a JSON string field. -/
structure ServiceRecord where
  hso_servicename : Option (Option String)
  hso_nextcollection : Option (Option String)
  hso_lastcollection : Option (Option String)
  hso_lastcollectioncompleted : Option (Option String)
  hso_statename : Option (Option String)
  hso_reason : Option (Option String)
  hso_statesource : Option (Option String)
  hso_scheduledescription : Option (Option String)
  hso_round : Option (Option String)
  hso_roundgroup : Option (Option String)
deriving DecidableEq, Repr

/-- The per-type entry stored in `collections[service_name]`. -/
structure CollectionInfo where
  next_collection : Option Date
  last_collection : Option Date
  last_completed : Option DateTime
  original_next_collection : Option Date
  available : Bool
  schedule : Option String
  round : Option String
  round_group : Option String
deriving DecidableEq, Repr

/-- The per-type entry stored in `live_status[service_name]`. -/
structure LiveStatusInfo where
  status : String
  reason : Option String
  source : Option String
deriving DecidableEq, Repr

/-- The value returned by `get_collection_data`. -/
structure Snapshot where
  collections : SDict CollectionInfo
  live_status : SDict LiveStatusInfo
  last_updated : DateTime
deriving DecidableEq, Repr

/-- Decoded JSON body of the collections endpoint: either a dict with a
`value` array of service records, or anything else (not a dict, or no
`value` key), which the code skips. -/
inductive CollectionsResponse where
  | withValue (value : List ServiceRecord)
  | malformed
deriving DecidableEq, Repr

/-- One record of the address-lookup response.  A field is `none` when the
key is absent or `null` (the code reads them with one-argument `.get`). -/
structure AddressRecord where
  property : Option String
  street : Option String
  locality : Option String
  town : Option String
  postcode : Option String
  uprn : Option String
deriving DecidableEq, Repr

/-- Decoded JSON body of the address endpoint: a list of records, or
anything that is not a list (the code then returns no addresses). -/
inductive AddressesResponse where
  | items (l : List AddressRecord)
  | notAList
deriving DecidableEq, Repr

/-- One entry of the list `get_addresses_for_postcode` returns. -/
structure AddressEntry where
  uprn : Option String
  address : String
deriving DecidableEq, Repr

/-- Outcome of the HTTP round trip, before JSON interpretation. -/
inductive RemoteResult (α : Type) where
  | ok (a : α)
  | clientError
deriving DecidableEq, Repr

/-- Exceptions escaping the API methods: the wrapped transport error
(`SouthGlosBinsAPIError`) or an uncaught `AttributeError`. -/
inductive ApiError where
  | southGlosBinsAPIError
  | attributeError
deriving DecidableEq, Repr

/-! ## `const.py` -/

def UPDATE_INTERVAL_NORMAL : Nat := 24 * 60 * 60

def UPDATE_INTERVAL_COLLECTION_DAY : Nat := 15 * 60

def COLLECTION_TYPES : List String := ["refuse", "recycling", "food", "garden"]

/-! ## `api.py` operations -/

/-- The `actual_next_collection` computed for one recognized record: if the
last collection parsed to today and the state name is truthy and its
lowercasing is not `"closed completed"`, today overrides the raw next
collection date. -/
def actual_next_collection (today : Date) (last_collection_date : Option Date)
    (state_name : Option String) (next_collection_date : Option Date) :
    Option Date :=
  match state_name with
  | some sn =>
    if last_collection_date = some today ∧ sn ≠ "" ∧ strLower sn ≠ "closed completed" then
      some today
    else next_collection_date
  | none => next_collection_date

/-- The `collections[service_name]` entry built for one recognized service
record (`api.py` lines 100-131). -/
def build_info (svc : ServiceRecord) (today : Date) : CollectionInfo :=
  let next_collection_date := parse_datetime (jget svc.hso_nextcollection)
  let last_collection_date := parse_datetime (jget svc.hso_lastcollection)
  let last_completed_datetime := parse_datetime_full (jget svc.hso_lastcollectioncompleted)
  let state_name := jget svc.hso_statename
  { next_collection :=
      actual_next_collection today last_collection_date state_name next_collection_date,
    last_collection := last_collection_date,
    last_completed := last_completed_datetime,
    original_next_collection := next_collection_date,
    available := true,
    schedule := jgetD svc.hso_scheduledescription "",
    round := jgetD svc.hso_round "",
    round_group := jgetD svc.hso_roundgroup "" }

/-- The loop over `data["value"]` in `get_collection_data`: for each record,
`service.get("hso_servicename", "").lower()` — which raises
`AttributeError` when the field holds `null` — then, when the lowercased
name is one of the four collection types, store the collection entry and,
when a truthy state name is present, the live-status entry. -/
def processServices (today : Date) :
    List ServiceRecord → SDict CollectionInfo → SDict LiveStatusInfo →
    Except ApiError (SDict CollectionInfo × SDict LiveStatusInfo)
  | [], collections, live_status => .ok (collections, live_status)
  | svc :: rest, collections, live_status =>
    match jgetD svc.hso_servicename "" with
    | none => .error .attributeError
    | some raw =>
      let service_name := strLower raw
      if service_name ∈ COLLECTION_TYPES then
        let collections2 := dinsert collections service_name (build_info svc today)
        let state_name := jget svc.hso_statename
        let live_status2 :=
          if truthyStr state_name then
            dinsert live_status service_name
              { status := state_name.getD "",
                reason := jget svc.hso_reason,
                source := jget svc.hso_statesource }
          else live_status
        processServices today rest collections2 live_status2
      else
        processServices today rest collections live_status

/-- `SouthGlosBinsAPI.get_collection_data`: wrap a transport error in
`SouthGlosBinsAPIError`; otherwise reduce the `value` records (an absent or
non-dict body gives empty maps) and stamp `last_updated = datetime.now()`. -/
def get_collection_data (fetched : RemoteResult CollectionsResponse)
    (today : Date) (now : DateTime) : Except ApiError Snapshot :=
  match fetched with
  | .clientError => .error .southGlosBinsAPIError
  | .ok resp =>
    let value :=
      match resp with
      | .withValue v => v
      | .malformed => []
    match processServices today value [] [] with
    | .error e => .error e
    | .ok (collections, live_status) =>
      .ok { collections := collections, live_status := live_status, last_updated := now }

/-- The address string built for one record: the truthy fields, in the order
property, street, locality, town, postcode, joined with `", "`. -/
def build_address (item : AddressRecord) : String :=
  let address_parts :=
    [item.property, item.street, item.locality, item.town, item.postcode].filterMap
      (fun v => if truthyStr v then some (v.getD "") else none)
  String.intercalate ", " address_parts

/-- `SouthGlosBinsAPI.get_addresses_for_postcode`: wrap a transport error in
`SouthGlosBinsAPIError`; a non-list body gives the empty list; otherwise one
entry per record, pairing `item.get("Uprn")` with the built address. -/
def get_addresses_for_postcode (fetched : RemoteResult AddressesResponse) :
    Except ApiError (List AddressEntry) :=
  match fetched with
  | .clientError => .error .southGlosBinsAPIError
  | .ok .notAList => .ok []
  | .ok (.items l) =>
    .ok (l.map (fun item => { uprn := item.uprn, address := build_address item }))

/-! ## `coordinator.py` -/

/-- Exceptions escaping `_async_update_data`: the `UpdateFailed` raised for a
`SouthGlosBinsAPIError`, or any other exception propagating unwrapped. -/
inductive CoordError where
  | updateFailed
  | uncaughtError
deriving DecidableEq, Repr

/-- The coordinator's mutable state: `self.data` (the held snapshot, owned by
the host `DataUpdateCoordinator` and replaced only when `_async_update_data`
returns normally), `self._last_update_date`, and `self.update_interval` in
seconds. -/
structure CoordState where
  data : Option Snapshot
  last_update_date : Option DateTime
  update_interval : Nat
deriving DecidableEq, Repr

/-- The collection-day scan of `_adjust_update_interval`: some entry has
`next_collection` truthy and equal to today. -/
def snapshot_collection_today (data : Snapshot) (today : Date) : Bool :=
  data.collections.any (fun p =>
    match p.2.next_collection with
    | some nc => decide (nc = today)
    | none => false)

/-- `_adjust_update_interval`: the interval after the call, and whether a
reschedule was issued (the interval changed). -/
def adjust_update_interval (data : Snapshot) (today : Date)
    (current_interval : Nat) : Nat × Bool :=
  let new_interval :=
    if snapshot_collection_today data today then UPDATE_INTERVAL_COLLECTION_DAY
    else UPDATE_INTERVAL_NORMAL
  (new_interval, decide (current_interval ≠ new_interval))

/-- `_async_update_data`, including the host coordinator's handling of its
result: on a normal return the host stores the returned snapshot in
`self.data`; on a raise nothing after the failed fetch runs, so every state
component keeps its previous value.  A `SouthGlosBinsAPIError` is re-raised
as `UpdateFailed`; any other exception propagates unwrapped. -/
def async_update_data (st : CoordState) (today : Date) (now : DateTime)
    (fetched : Except ApiError Snapshot) : CoordState × Except CoordError Snapshot :=
  match fetched with
  | .error .southGlosBinsAPIError => (st, .error .updateFailed)
  | .error .attributeError => (st, .error .uncaughtError)
  | .ok d =>
    let new_interval := (adjust_update_interval d today st.update_interval).1
    ({ data := some d, last_update_date := some now, update_interval := new_interval },
     .ok d)

/-- `_is_collection_day_for_type`. -/
def is_collection_day_for_type (collection_type : String)
    (collections : SDict CollectionInfo) (live_status : SDict LiveStatusInfo)
    (today : Date) : Bool :=
  let collection_info := dget collections collection_type
  let next_collection := collection_info.bind CollectionInfo.next_collection
  let last_collection := collection_info.bind CollectionInfo.last_collection
  decide (next_collection = some today) ||
    (decide (last_collection = some today) && dmem live_status collection_type)

/-- `is_collection_day`: `False` without a held snapshot; with a truthy type
argument, the per-type check; otherwise the check over every key of
`collections`. -/
def is_collection_day (st : CoordState) (today : Date)
    (collection_type : Option String) : Bool :=
  match st.data with
  | none => false
  | some snap =>
    if truthyStr collection_type then
      is_collection_day_for_type (collection_type.getD "") snap.collections
        snap.live_status today
    else
      (dkeys snap.collections).any (fun k =>
        is_collection_day_for_type k snap.collections snap.live_status today)

/-- `_should_force_update_on_midnight_crossing`. -/
def should_force_update_on_midnight_crossing (st : CoordState)
    (current_date : Date) : Bool :=
  match st.data, st.last_update_date with
  | none, _ => false
  | some _, none => false
  | some snap, some lu =>
    if lu.date.key ≥ current_date.key then false
    else
      snap.collections.any (fun p =>
        match p.2.next_collection with
        | some nc => decide (nc = current_date)
        | none => false)

/-- `_check_midnight_crossing`: the number of forced refreshes requested by
one tick (one `async_request_refresh` call when the day-boundary check
holds, none otherwise). -/
def check_midnight_crossing (st : CoordState) (now : DateTime) : Nat :=
  if should_force_update_on_midnight_crossing st now.date then 1 else 0

/-- `is_collection_available`: `False` without a held snapshot, else
`collections.get(type, {}).get("available", False)`. -/
def is_collection_available (st : CoordState) (collection_type : String) : Bool :=
  match st.data with
  | none => false
  | some snap =>
    match dget snap.collections collection_type with
    | none => false
    | some info => info.available

/-! ## Spec-side formulations

Definitions that follow the specification's wording, to be compared with the
behaviour of the embedded code. -/

/-- The specification's wording of the same-day-in-progress condition: the
parsed last-collection date equals today, a status name is present, and that
status name lowercased is not exactly `"closed completed"`. -/
def spec_inprogress_override (today : Date) (last_collection : Option Date)
    (state_name : Option String) : Prop :=
  last_collection = some today ∧
    ∃ s, state_name = some s ∧ s ≠ "" ∧ strLower s ≠ "closed completed"

instance (today : Date) (lc : Option Date) (sn : Option String) :
    Decidable (spec_inprogress_override today lc sn) :=
  match sn with
  | none =>
    isFalse (fun h => by
      rcases h with ⟨-, s, hs, -⟩
      exact Option.noConfusion hs)
  | some s =>
    decidable_of_iff (lc = some today ∧ s ≠ "" ∧ strLower s ≠ "closed completed")
      (by
        constructor
        · rintro ⟨h1, h2, h3⟩
          exact ⟨h1, s, rfl, h2, h3⟩
        · rintro ⟨h1, t, ht, h2, h3⟩
          cases Option.some.inj ht
          exact ⟨h1, h2, h3⟩)

/-- The specification's wording of the address join: take the five fields in
the order property name, street, locality, town, postcode, keep exactly the
non-empty ones, and join them with `", "`. -/
def spec_address_join (item : AddressRecord) : String :=
  String.intercalate ", "
    ((([item.property, item.street, item.locality, item.town,
        item.postcode]).map (fun v => v.getD "")).filter
      (fun s => decide (s ≠ "")))

/-! ## Concrete sample data (used by witnesses and counterexamples) -/

/-- A service record shaped like a live remote record: refuse, collected
earlier today, with the round still in progress. -/
def sample_refuse : ServiceRecord :=
  { hso_servicename := some (some "Refuse"),
    hso_nextcollection := some (some "2025-08-19T07:00:00+01:00"),
    hso_lastcollection := some (some "2025-08-12T07:00:00+01:00"),
    hso_lastcollectioncompleted := none,
    hso_statename := some (some "In Progress"),
    hso_reason := none,
    hso_statesource := some (some "crew"),
    hso_scheduledescription := some (some "Tuesday fortnightly"),
    hso_round := some (some "R1"),
    hso_roundgroup := some (some "G1") }

/-- A service record whose `hso_servicename` key is present with value
`null`. -/
def sample_null_name : ServiceRecord :=
  { hso_servicename := some none,
    hso_nextcollection := none,
    hso_lastcollection := none,
    hso_lastcollectioncompleted := none,
    hso_statename := none,
    hso_reason := none,
    hso_statesource := none,
    hso_scheduledescription := none,
    hso_round := none,
    hso_roundgroup := none }

/-- A recognized record whose three date-bearing fields are all malformed or
empty. -/
def sample_bad_dates : ServiceRecord :=
  { hso_servicename := some (some "Recycling"),
    hso_nextcollection := some (some ""),
    hso_lastcollection := some (some "not a date"),
    hso_lastcollectioncompleted := some (some "2025-13-99Tgarbage"),
    hso_statename := some (some "In Progress"),
    hso_reason := none,
    hso_statesource := none,
    hso_scheduledescription := none,
    hso_round := none,
    hso_roundgroup := none }

/-- A record for a service that is not one of the four collection types. -/
def sample_unknown : ServiceRecord :=
  { hso_servicename := some (some "Street Cleansing"),
    hso_nextcollection := some (some "2025-08-19T07:00:00+01:00"),
    hso_lastcollection := none,
    hso_lastcollectioncompleted := none,
    hso_statename := some (some "Open"),
    hso_reason := none,
    hso_statesource := none,
    hso_scheduledescription := none,
    hso_round := none,
    hso_roundgroup := none }

/-- 12 August 2025, the sample "today". -/
def sample_today : Date := ⟨2025, 8, 12⟩

/-- A sample `datetime.now()`. -/
def sample_now : DateTime := ⟨sample_today, 36000⟩

/-- The snapshot a fetch of `[sample_refuse]` produces on the sample day. -/
def sample_snapshot : Snapshot :=
  { collections := [("refuse", build_info sample_refuse sample_today)],
    live_status :=
      [("refuse", { status := "In Progress", reason := none, source := some "crew" })],
    last_updated := sample_now }

/-! ## Helper lemmas -/

theorem any_next_eq_iff (l : SDict CollectionInfo) (t : Date) :
    (l.any fun p =>
        match p.2.next_collection with
        | some nc => decide (nc = t)
        | none => false) = true ↔
      ∃ p ∈ l, p.2.next_collection = some t := by
  rw [List.any_eq_true]
  refine exists_congr fun p => and_congr_right fun _ => ?_
  cases h : p.2.next_collection <;> simp [h]

theorem snapshot_collection_today_iff (d : Snapshot) (today : Date) :
    snapshot_collection_today d today = true ↔
      ∃ p ∈ d.collections, p.2.next_collection = some today := by
  unfold snapshot_collection_today
  exact any_next_eq_iff d.collections today

/-! ## Claims -/

/-- Claim C4: when the fetch layer fails with `SouthGlosBinsAPIError`, the
coordinator surfaces `UpdateFailed` and leaves the held snapshot, the
last-fetch timestamp and the polling interval unchanged. -/
theorem C4_error_leaves_state_unchanged (st : CoordState) (today : Date)
    (now : DateTime) :
    (async_update_data st today now (.error .southGlosBinsAPIError)).1.data = st.data ∧
    (async_update_data st today now
        (.error .southGlosBinsAPIError)).1.last_update_date = st.last_update_date ∧
    (async_update_data st today now
        (.error .southGlosBinsAPIError)).1.update_interval = st.update_interval ∧
    (async_update_data st today now (.error .southGlosBinsAPIError)).2 =
      .error .updateFailed :=
  ⟨rfl, rfl, rfl, rfl⟩

/-- Claim C2: after a successful fetch the interval is the fast 15-minute value
exactly when some collection type's `next_collection` equals today, the slow
24-hour value exactly when none does (whatever the previous interval was),
and it is always one of those two values. -/
theorem C2_interval_transition (st : CoordState) (d : Snapshot) (today : Date)
    (now : DateTime) :
    ((async_update_data st today now (.ok d)).1.update_interval =
        UPDATE_INTERVAL_COLLECTION_DAY ↔
      ∃ p ∈ d.collections, p.2.next_collection = some today) ∧
    ((async_update_data st today now (.ok d)).1.update_interval =
        UPDATE_INTERVAL_NORMAL ↔
      ¬∃ p ∈ d.collections, p.2.next_collection = some today) ∧
    ((async_update_data st today now (.ok d)).1.update_interval =
        UPDATE_INTERVAL_COLLECTION_DAY ∨
      (async_update_data st today now (.ok d)).1.update_interval =
        UPDATE_INTERVAL_NORMAL) := by
  have hne : UPDATE_INTERVAL_COLLECTION_DAY ≠ UPDATE_INTERVAL_NORMAL := by decide
  have hval : (async_update_data st today now (.ok d)).1.update_interval =
      if snapshot_collection_today d today then UPDATE_INTERVAL_COLLECTION_DAY
      else UPDATE_INTERVAL_NORMAL := rfl
  rw [hval]
  by_cases h : snapshot_collection_today d today = true
  · rw [← snapshot_collection_today_iff]
    simp [h, hne]
  · rw [← snapshot_collection_today_iff]
    simp [h, hne, Ne.symm hne]

/-- Claim C3: the day-boundary check decides to force a refresh exactly when a
snapshot is held, the last-fetch timestamp is set, its date portion is
strictly before the current date, and some held collection type's
`next_collection` equals the new current date; one background tick then
requests exactly one forced refresh when the condition holds and none
otherwise. -/
theorem C3_day_boundary_forcing (st : CoordState) (current_date : Date)
    (now : DateTime) :
    (should_force_update_on_midnight_crossing st current_date = true ↔
      ∃ snap lu, st.data = some snap ∧ st.last_update_date = some lu ∧
        lu.date.key < current_date.key ∧
        ∃ p ∈ snap.collections, p.2.next_collection = some current_date) ∧
    (check_midnight_crossing st now = 1 ↔
      ∃ snap lu, st.data = some snap ∧ st.last_update_date = some lu ∧
        lu.date.key < now.date.key ∧
        ∃ p ∈ snap.collections, p.2.next_collection = some now.date) ∧
    (check_midnight_crossing st now = 0 ↔
      ¬∃ snap lu, st.data = some snap ∧ st.last_update_date = some lu ∧
        lu.date.key < now.date.key ∧
        ∃ p ∈ snap.collections, p.2.next_collection = some now.date) := by
  have main : ∀ c : Date, should_force_update_on_midnight_crossing st c = true ↔
      ∃ snap lu, st.data = some snap ∧ st.last_update_date = some lu ∧
        lu.date.key < c.key ∧
        ∃ p ∈ snap.collections, p.2.next_collection = some c := by
    intro c
    unfold should_force_update_on_midnight_crossing
    match hd : st.data, hl : st.last_update_date with
    | none, _ => simp
    | some snap, none => simp
    | some snap, some lu =>
      by_cases hk : lu.date.key ≥ c.key
      · simp only [if_pos hk]
        constructor
        · intro h
          exact absurd h (by simp)
        · rintro ⟨snap2, lu2, hs, hl2, hlt, -⟩
          cases Option.some.inj hs
          cases Option.some.inj hl2
          omega
      · simp only [if_neg hk]
        rw [any_next_eq_iff]
        constructor
        · intro h
          exact ⟨snap, lu, rfl, rfl, by omega, h⟩
        · rintro ⟨snap2, lu2, hs, hl2, -, h⟩
          cases Option.some.inj hs
          cases Option.some.inj hl2
          exact h
  have h2 := main now.date
  refine ⟨main current_date, ?_, ?_⟩
  · unfold check_midnight_crossing
    by_cases h : should_force_update_on_midnight_crossing st now.date = true
    · rw [if_pos h]
      exact iff_of_true rfl (h2.mp h)
    · rw [if_neg h]
      exact iff_of_false (by decide) (fun hp => h (h2.mpr hp))
  · unfold check_midnight_crossing
    by_cases h : should_force_update_on_midnight_crossing st now.date = true
    · rw [if_pos h]
      exact iff_of_false (by decide) (fun hn => hn (h2.mp h))
    · rw [if_neg h]
      exact iff_of_true rfl (fun hp => h (h2.mpr hp))

theorem actual_next_collection_spec (today : Date) (lc nc : Option Date)
    (sn : Option String) :
    actual_next_collection today lc sn nc =
      if spec_inprogress_override today lc sn then some today else nc := by
  unfold actual_next_collection
  cases sn with
  | none =>
    rw [if_neg]
    rintro ⟨-, s, hs, -⟩
    exact Option.noConfusion hs
  | some s =>
    show (if lc = some today ∧ s ≠ "" ∧ strLower s ≠ "closed completed" then
        some today else nc) = _
    by_cases h : lc = some today ∧ s ≠ "" ∧ strLower s ≠ "closed completed"
    · rw [if_pos h, if_pos ⟨h.1, s, rfl, h.2.1, h.2.2⟩]
    · rw [if_neg h, if_neg]
      rintro ⟨h1, t, ht, h2, h3⟩
      cases Option.some.inj ht
      exact h ⟨h1, h2, h3⟩

theorem processServices_single_recognized (svc : ServiceRecord) (today : Date)
    (s : String) (hname : svc.hso_servicename = some (some s))
    (hmem : strLower s ∈ COLLECTION_TYPES) :
    ∃ live2, processServices today [svc] [] [] =
      .ok ([(strLower s, build_info svc today)], live2) := by
  have hget : jgetD svc.hso_servicename "" = some s := by
    rw [hname]
    rfl
  unfold processServices
  rw [hget]
  simp only [if_pos hmem]
  by_cases ht : truthyStr (jget svc.hso_statename) = true
  · simp only [if_pos ht]
    exact ⟨_, rfl⟩
  · simp only [if_neg ht]
    exact ⟨_, rfl⟩

/-- Claim C1: for every recognized service record, the stored effective
`next_collection` is today exactly when the parsed last-collection date is
today, a status name is present, and its lowercasing is not
`"closed completed"`; in every other case it is the raw parsed
next-collection date unchanged.  The second part ties the stored entry of a
fetched snapshot to `build_info`. -/
theorem C1_same_day_override :
    (∀ (svc : ServiceRecord) (today : Date),
      (build_info svc today).next_collection =
        if spec_inprogress_override today
            (parse_datetime (jget svc.hso_lastcollection))
            (jget svc.hso_statename)
        then some today
        else parse_datetime (jget svc.hso_nextcollection)) ∧
    (∀ (svc : ServiceRecord) (today : Date) (now : DateTime) (s : String),
      svc.hso_servicename = some (some s) → strLower s ∈ COLLECTION_TYPES →
      ∃ snap, get_collection_data (.ok (.withValue [svc])) today now = .ok snap ∧
        dget snap.collections (strLower s) = some (build_info svc today)) := by
  constructor
  · intro svc today
    have hb : (build_info svc today).next_collection =
        actual_next_collection today
          (parse_datetime (jget svc.hso_lastcollection))
          (jget svc.hso_statename)
          (parse_datetime (jget svc.hso_nextcollection)) := rfl
    rw [hb, actual_next_collection_spec]
  · intro svc today now s hname hmem
    obtain ⟨live2, hstep⟩ := processServices_single_recognized svc today s hname hmem
    refine ⟨⟨[(strLower s, build_info svc today)], live2, now⟩, ?_, ?_⟩
    · have hred : get_collection_data (.ok (.withValue [svc])) today now =
          match processServices today [svc] [] [] with
          | .error e => .error e
          | .ok (c, l) => .ok ⟨c, l, now⟩ := rfl
      rw [hred, hstep]
    · simp [dget]

/-- Claim C1 witness: the sample refuse record, collected earlier today with the
round in progress, gets today as its effective next collection, and a fetch
of it stores exactly that entry under `"refuse"`. -/
theorem C1_same_day_override_witness :
    (build_info sample_refuse sample_today).next_collection = some sample_today ∧
    ∃ snap, get_collection_data (.ok (.withValue [sample_refuse])) sample_today
        sample_now = .ok snap ∧
      dget snap.collections (strLower "Refuse") =
        some (build_info sample_refuse sample_today) := by
  constructor
  · rw [C1_same_day_override.1 sample_refuse sample_today, if_pos]
    exact ⟨by decide, "In Progress", by decide, by decide, by decide⟩
  · exact C1_same_day_override.2 sample_refuse sample_today sample_now "Refuse"
      rfl (by decide)

theorem filterMap_truthy_eq (l : List (Option String)) :
    l.filterMap (fun v => if truthyStr v then some (v.getD "") else none) =
      (l.map (fun v => v.getD "")).filter (fun s => decide (s ≠ "")) := by
  induction l with
  | nil => rfl
  | cons v rest ih =>
    rw [List.map_cons]
    cases v with
    | none =>
      rw [List.filterMap_cons_none rfl, List.filter_cons_of_neg (by decide)]
      exact ih
    | some s =>
      by_cases hs : s = ""
      · subst hs
        rw [List.filterMap_cons_none rfl, List.filter_cons_of_neg (by decide)]
        exact ih
      · rw [List.filterMap_cons_some (b := s) (by simp [truthyStr, hs]),
          List.filter_cons_of_pos (by simpa using hs)]
        rw [ih]
        rfl

/-- Claim C9: address resolution returns one entry per raw record, pairing the
record's household identifier with the non-empty fields joined in order with
`", "`; a body with no records gives the empty list; transport failure
raises the communication error. -/
theorem C9_resolve_addresses :
    (∀ l, get_addresses_for_postcode (.ok (.items l)) =
      .ok (l.map (fun item => ⟨item.uprn, spec_address_join item⟩))) ∧
    get_addresses_for_postcode (.ok (.items [])) = .ok [] ∧
    get_addresses_for_postcode (.ok .notAList) = .ok [] ∧
    get_addresses_for_postcode .clientError = .error .southGlosBinsAPIError := by
  have hjoin : ∀ item, build_address item = spec_address_join item := by
    intro item
    unfold build_address spec_address_join
    rw [filterMap_truthy_eq]
  refine ⟨fun l => ?_, rfl, rfl, rfl⟩
  unfold get_addresses_for_postcode
  simp [hjoin]

/-- Claim C8: with the remote response and the current date fixed, two
invocations of the fetch/normalize step agree on the `collections` and
`live_status` maps; only the `last_updated` stamp depends on the invocation
time. -/
theorem C8_fetch_idempotent (fetched : RemoteResult CollectionsResponse)
    (today : Date) (t1 t2 : DateTime) :
    (get_collection_data fetched today t1).map Snapshot.collections =
      (get_collection_data fetched today t2).map Snapshot.collections ∧
    (get_collection_data fetched today t1).map Snapshot.live_status =
      (get_collection_data fetched today t2).map Snapshot.live_status := by
  have core : ∀ v : List ServiceRecord,
      (match processServices today v [] [] with
        | Except.error e => Except.error e
        | Except.ok (c, l) =>
          Except.ok (Snapshot.mk c l t1)).map Snapshot.collections =
        (match processServices today v [] [] with
          | Except.error e => Except.error e
          | Except.ok (c, l) =>
            Except.ok (Snapshot.mk c l t2)).map Snapshot.collections ∧
      (match processServices today v [] [] with
        | Except.error e => Except.error e
        | Except.ok (c, l) =>
          Except.ok (Snapshot.mk c l t1)).map Snapshot.live_status =
        (match processServices today v [] [] with
          | Except.error e => Except.error e
          | Except.ok (c, l) =>
            Except.ok (Snapshot.mk c l t2)).map Snapshot.live_status := by
    intro v
    generalize processServices today v [] [] = x
    cases x with
    | error e => exact ⟨rfl, rfl⟩
    | ok r =>
      cases r
      exact ⟨rfl, rfl⟩
  cases fetched with
  | clientError => exact ⟨rfl, rfl⟩
  | ok resp =>
    cases resp with
    | withValue v => exact core v
    | malformed => exact core []

theorem is_collection_day_for_type_iff (t : String) (cols : SDict CollectionInfo)
    (live : SDict LiveStatusInfo) (today : Date) :
    is_collection_day_for_type t cols live today = true ↔
      ((dget cols t).bind CollectionInfo.next_collection = some today ∨
        ((dget cols t).bind CollectionInfo.last_collection = some today ∧
          dmem live t = true)) := by
  unfold is_collection_day_for_type
  simp [Bool.or_eq_true, Bool.and_eq_true, decide_eq_true_eq]

/-- Claim C6: `is_collection_day` is false whenever no snapshot is held; for
a held snapshot and a collection type it is true exactly when that type's
`next_collection` is today or its `last_collection` is today and a
live-status entry exists for it; with the type omitted it is true exactly
when this holds for some type present in the snapshot. -/
theorem C6_is_collection_day :
    (∀ st : CoordState, st.data = none → ∀ (today : Date) (ct : Option String),
      is_collection_day st today ct = false) ∧
    (∀ (snap : Snapshot) (lu : Option DateTime) (ui : Nat) (today : Date)
        (t : String), t ∈ COLLECTION_TYPES →
      (is_collection_day ⟨some snap, lu, ui⟩ today (some t) = true ↔
        (dget snap.collections t).bind CollectionInfo.next_collection = some today ∨
          ((dget snap.collections t).bind CollectionInfo.last_collection = some today ∧
            dmem snap.live_status t = true))) ∧
    (∀ (snap : Snapshot) (lu : Option DateTime) (ui : Nat) (today : Date),
      (is_collection_day ⟨some snap, lu, ui⟩ today none = true ↔
        ∃ t ∈ dkeys snap.collections,
          (dget snap.collections t).bind CollectionInfo.next_collection = some today ∨
            ((dget snap.collections t).bind CollectionInfo.last_collection = some today ∧
              dmem snap.live_status t = true))) := by
  refine ⟨?_, ?_, ?_⟩
  · intro st h today ct
    unfold is_collection_day
    rw [h]
  · intro snap lu ui today t hmem
    have ht : t ≠ "" := by
      intro he
      subst he
      exact absurd hmem (by decide)
    have htr : truthyStr (some t) = true := by simp [truthyStr, ht]
    show (if truthyStr (some t) = true then
        is_collection_day_for_type ((some t).getD "") snap.collections
          snap.live_status today
      else
        (dkeys snap.collections).any fun k =>
          is_collection_day_for_type k snap.collections snap.live_status today) =
        true ↔ _
    rw [if_pos htr]
    exact is_collection_day_for_type_iff t snap.collections snap.live_status today
  · intro snap lu ui today
    show ((dkeys snap.collections).any fun k =>
        is_collection_day_for_type k snap.collections snap.live_status today) =
        true ↔ _
    rw [List.any_eq_true]
    exact exists_congr fun t => and_congr_right fun _ =>
      is_collection_day_for_type_iff t snap.collections snap.live_status today

/-- Claim C6 witness: on the sample snapshot, refuse counts as a collection
day (its effective next collection is today). -/
theorem C6_is_collection_day_witness :
    is_collection_day ⟨some sample_snapshot, none, 0⟩ sample_today (some "refuse") =
      true :=
  (C6_is_collection_day.2.1 sample_snapshot none 0 sample_today "refuse"
      (by decide)).mpr (by decide)

theorem mem_dinsert {α : Type} {m : SDict α} {k : String} {v : α}
    {q : String × α} (hq : q ∈ dinsert m k v) : q ∈ m ∨ q = (k, v) := by
  unfold dinsert at hq
  by_cases h : m.any (fun p => p.1 == k)
  · rw [if_pos h] at hq
    rcases List.mem_map.mp hq with ⟨p, hp, he⟩
    by_cases hk : (p.1 == k) = true
    · right
      rw [if_pos hk] at he
      exact he.symm
    · left
      rw [if_neg hk] at he
      exact he ▸ hp
  · rw [if_neg h] at hq
    rcases List.mem_append.mp hq with h1 | h1
    · exact Or.inl h1
    · right
      simpa using h1

theorem mem_of_dget_some {α : Type} {m : SDict α} {k : String} {v : α}
    (h : dget m k = some v) : ∃ p ∈ m, p.2 = v := by
  unfold dget at h
  cases hf : m.find? (fun p => p.1 == k) with
  | none => rw [hf] at h; cases h
  | some q =>
    rw [hf] at h
    exact ⟨q, List.mem_of_find?_eq_some hf, Option.some.inj h⟩

theorem dmem_eq_true_of_dget_some {α : Type} {m : SDict α} {k : String} {v : α}
    (h : dget m k = some v) : dmem m k = true := by
  unfold dget at h
  cases hf : m.find? (fun p => p.1 == k) with
  | none => rw [hf] at h; cases h
  | some q =>
    unfold dmem
    rw [List.any_eq_true]
    have hp := List.find?_some hf
    exact ⟨q, List.mem_of_find?_eq_some hf, hp⟩

theorem dmem_eq_false_of_dget_none {α : Type} {m : SDict α} {k : String}
    (h : dget m k = none) : dmem m k = false := by
  unfold dget at h
  cases hf : m.find? (fun p => p.1 == k) with
  | some q => rw [hf] at h; cases h
  | none =>
    unfold dmem
    rw [Bool.eq_false_iff]
    intro hany
    rcases List.any_eq_true.mp hany with ⟨p, hp, hpk⟩
    exact absurd (List.find?_eq_none.mp hf p hp) (by simpa using hpk)

theorem processServices_cons_null {svc : ServiceRecord} {rest : List ServiceRecord}
    {cols : SDict CollectionInfo} {live : SDict LiveStatusInfo} {today : Date}
    (hname : jgetD svc.hso_servicename "" = none) :
    processServices today (svc :: rest) cols live = .error .attributeError := by
  simp only [processServices]
  rw [hname]

theorem processServices_cons_recognized {svc : ServiceRecord}
    {rest : List ServiceRecord} {cols : SDict CollectionInfo}
    {live : SDict LiveStatusInfo} {today : Date} {raw : String}
    (hname : jgetD svc.hso_servicename "" = some raw)
    (hmem : strLower raw ∈ COLLECTION_TYPES) :
    processServices today (svc :: rest) cols live =
      processServices today rest
        (dinsert cols (strLower raw) (build_info svc today))
        (if truthyStr (jget svc.hso_statename) = true then
          dinsert live (strLower raw)
            { status := (jget svc.hso_statename).getD "",
              reason := jget svc.hso_reason,
              source := jget svc.hso_statesource }
        else live) := by
  simp only [processServices]
  rw [hname]
  show (if strLower raw ∈ COLLECTION_TYPES then _ else _) = _
  rw [if_pos hmem]

theorem processServices_cons_unrecognized {svc : ServiceRecord}
    {rest : List ServiceRecord} {cols : SDict CollectionInfo}
    {live : SDict LiveStatusInfo} {today : Date} {raw : String}
    (hname : jgetD svc.hso_servicename "" = some raw)
    (hmem : strLower raw ∉ COLLECTION_TYPES) :
    processServices today (svc :: rest) cols live =
      processServices today rest cols live := by
  simp only [processServices]
  rw [hname]
  show (if strLower raw ∈ COLLECTION_TYPES then _ else _) = _
  rw [if_neg hmem]

theorem processServices_available (today : Date) :
    ∀ (l : List ServiceRecord) (cols : SDict CollectionInfo)
      (live : SDict LiveStatusInfo) (cols2 : SDict CollectionInfo)
      (live2 : SDict LiveStatusInfo),
      processServices today l cols live = .ok (cols2, live2) →
      (∀ p ∈ cols, p.2.available = true) →
      ∀ p ∈ cols2, p.2.available = true := by
  intro l
  induction l with
  | nil =>
    intro cols live cols2 live2 h hinv
    have h2 : cols = cols2 ∧ live = live2 := by
      have := Except.ok.inj h
      exact ⟨congrArg Prod.fst this, congrArg Prod.snd this⟩
    exact h2.1 ▸ hinv
  | cons svc rest ih =>
    intro cols live cols2 live2 h hinv
    cases hname : jgetD svc.hso_servicename "" with
    | none =>
      rw [processServices_cons_null hname] at h
      cases h
    | some raw =>
      by_cases hmem : strLower raw ∈ COLLECTION_TYPES
      · rw [processServices_cons_recognized hname hmem] at h
        refine ih _ _ _ _ h ?_
        intro p hp
        rcases mem_dinsert hp with h1 | h1
        · exact hinv p h1
        · rw [h1]
          rfl
      · rw [processServices_cons_unrecognized hname hmem] at h
        exact ih _ _ _ _ h hinv

/-- Claim C7: for a snapshot produced by a fetch, `is_collection_available`
agrees with key membership in the `collections` map, and it is false
whenever no snapshot is held. -/
theorem C7_is_collection_available :
    (∀ (fetched : RemoteResult CollectionsResponse) (today : Date)
        (now : DateTime) (snap : Snapshot) (lu : Option DateTime) (ui : Nat),
      get_collection_data fetched today now = .ok snap →
      ∀ t, is_collection_available ⟨some snap, lu, ui⟩ t =
        dmem snap.collections t) ∧
    (∀ st : CoordState, st.data = none →
      ∀ t, is_collection_available st t = false) := by
  constructor
  · intro fetched today now snap lu ui h t
    have hav : ∀ p ∈ snap.collections, p.2.available = true := by
      cases fetched with
      | clientError => cases h
      | ok resp =>
        cases resp with
        | withValue v =>
          have hred : get_collection_data (.ok (.withValue v)) today now =
              match processServices today v [] [] with
              | .error e => .error e
              | .ok (c, l) => .ok ⟨c, l, now⟩ := rfl
          rw [hred] at h
          cases hps : processServices today v [] [] with
          | error e => rw [hps] at h; cases h
          | ok r =>
            rcases r with ⟨c, l⟩
            rw [hps] at h
            have hsnap := (Except.ok.inj h).symm
            subst hsnap
            exact processServices_available today v [] [] c l hps
              (fun p hp => absurd hp (List.not_mem_nil p))
        | malformed =>
          have hred : get_collection_data (.ok .malformed) today now =
              .ok ⟨[], [], now⟩ := rfl
          rw [hred] at h
          have hsnap := (Except.ok.inj h).symm
          subst hsnap
          intro p hp
          cases hp
    show (match dget snap.collections t with
      | none => false
      | some info => info.available) = dmem snap.collections t
    cases hg : dget snap.collections t with
    | none => rw [dmem_eq_false_of_dget_none hg]
    | some info =>
      rw [dmem_eq_true_of_dget_some hg]
      rcases mem_of_dget_some hg with ⟨p, hp, hpv⟩
      rw [← hpv]
      exact hav p hp
  · intro st h t
    unfold is_collection_available
    rw [h]

/-- Claim C7 witness: on the snapshot fetched from the sample refuse record,
availability of `"refuse"` coincides with key membership. -/
theorem C7_is_collection_available_witness :
    is_collection_available ⟨some sample_snapshot, none, 0⟩ "refuse" =
      dmem sample_snapshot.collections "refuse" :=
  C7_is_collection_available.1 (.ok (.withValue [sample_refuse])) sample_today
    sample_now sample_snapshot none 0 (by rfl) "refuse"

theorem mem_dkeys_dinsert {α : Type} {m : SDict α} {k k2 : String} {v : α}
    (h : k2 ∈ dkeys (dinsert m k v)) : k2 ∈ dkeys m ∨ k2 = k := by
  unfold dkeys at h ⊢
  rcases List.mem_map.mp h with ⟨q, hq, rfl⟩
  rcases mem_dinsert hq with h1 | h1
  · exact Or.inl (List.mem_map.mpr ⟨q, h1, rfl⟩)
  · right
    rw [h1]

theorem dkeys_mono_dinsert {α : Type} (m : SDict α) (k : String) (v : α)
    {k2 : String} (h : k2 ∈ dkeys m) : k2 ∈ dkeys (dinsert m k v) := by
  unfold dkeys at h ⊢
  rcases List.mem_map.mp h with ⟨q, hq, rfl⟩
  unfold dinsert
  by_cases hc : m.any (fun p => p.1 == k)
  · rw [if_pos hc]
    refine List.mem_map.mpr ⟨if q.1 == k then (k, v) else q,
      List.mem_map.mpr ⟨q, hq, rfl⟩, ?_⟩
    by_cases hk : (q.1 == k) = true
    · rw [if_pos hk]
      exact (eq_of_beq hk).symm
    · rw [if_neg hk]
  · rw [if_neg hc]
    exact List.mem_map.mpr ⟨q, List.mem_append_left _ hq, rfl⟩

theorem self_mem_dkeys_dinsert {α : Type} (m : SDict α) (k : String) (v : α) :
    k ∈ dkeys (dinsert m k v) := by
  unfold dinsert dkeys
  by_cases hc : m.any (fun p => p.1 == k)
  · rw [if_pos hc]
    rcases List.any_eq_true.mp hc with ⟨p, hp, hpk⟩
    refine List.mem_map.mpr ⟨(k, v), List.mem_map.mpr ⟨p, hp, ?_⟩, rfl⟩
    rw [if_pos hpk]
  · rw [if_neg hc]
    exact List.mem_map.mpr ⟨(k, v), List.mem_append_right _ (by simp), rfl⟩

theorem processServices_keys (today : Date) :
    ∀ (l : List ServiceRecord) (cols : SDict CollectionInfo)
      (live : SDict LiveStatusInfo) (cols2 : SDict CollectionInfo)
      (live2 : SDict LiveStatusInfo),
      processServices today l cols live = .ok (cols2, live2) →
      (∀ k ∈ dkeys live, k ∈ dkeys cols) →
      (∀ k ∈ dkeys cols, k ∈ COLLECTION_TYPES) →
      ((∀ k ∈ dkeys live2, k ∈ dkeys cols2) ∧
        (∀ k ∈ dkeys cols2, k ∈ COLLECTION_TYPES)) := by
  intro l
  induction l with
  | nil =>
    intro cols live cols2 live2 h h1 h2
    have heq := Except.ok.inj h
    have hc : cols = cols2 := congrArg Prod.fst heq
    have hl : live = live2 := congrArg Prod.snd heq
    subst hc
    subst hl
    exact ⟨h1, h2⟩
  | cons svc rest ih =>
    intro cols live cols2 live2 h h1 h2
    cases hname : jgetD svc.hso_servicename "" with
    | none =>
      rw [processServices_cons_null hname] at h
      cases h
    | some raw =>
      by_cases hmem : strLower raw ∈ COLLECTION_TYPES
      · rw [processServices_cons_recognized hname hmem] at h
        refine ih _ _ _ _ h ?_ ?_
        · intro k hk
          by_cases ht : truthyStr (jget svc.hso_statename) = true
          · rw [if_pos ht] at hk
            rcases mem_dkeys_dinsert hk with h3 | h3
            · exact dkeys_mono_dinsert _ _ _ (h1 k h3)
            · rw [h3]
              exact self_mem_dkeys_dinsert _ _ _
          · rw [if_neg ht] at hk
            exact dkeys_mono_dinsert _ _ _ (h1 k hk)
        · intro k hk
          rcases mem_dkeys_dinsert hk with h3 | h3
          · exact h2 k h3
          · rw [h3]
            exact hmem
      · rw [processServices_cons_unrecognized hname hmem] at h
        exact ih _ _ _ _ h h1 h2

/-- Claim C10: in every snapshot produced by a fetch, the keys of the
`live_status` map form a subset of the keys of the `collections` map, and
every key of either map is one of the four lowercase collection-type
names. -/
theorem C10_key_invariants (fetched : RemoteResult CollectionsResponse)
    (today : Date) (now : DateTime) (snap : Snapshot)
    (h : get_collection_data fetched today now = .ok snap) :
    (∀ k ∈ dkeys snap.live_status, k ∈ dkeys snap.collections) ∧
    (∀ k ∈ dkeys snap.collections, k ∈ COLLECTION_TYPES) ∧
    (∀ k ∈ dkeys snap.live_status, k ∈ COLLECTION_TYPES) := by
  have main : (∀ k ∈ dkeys snap.live_status, k ∈ dkeys snap.collections) ∧
      (∀ k ∈ dkeys snap.collections, k ∈ COLLECTION_TYPES) := by
    cases fetched with
    | clientError => cases h
    | ok resp =>
      cases resp with
      | withValue v =>
        have hred : get_collection_data (.ok (.withValue v)) today now =
            match processServices today v [] [] with
            | .error e => .error e
            | .ok (c, l) => .ok ⟨c, l, now⟩ := rfl
        rw [hred] at h
        cases hps : processServices today v [] [] with
        | error e => rw [hps] at h; cases h
        | ok r =>
          rcases r with ⟨c, l⟩
          rw [hps] at h
          have hsnap := (Except.ok.inj h).symm
          subst hsnap
          exact processServices_keys today v [] [] c l hps
            (fun k hk => absurd hk (List.not_mem_nil k))
            (fun k hk => absurd hk (List.not_mem_nil k))
      | malformed =>
        have hred : get_collection_data (.ok .malformed) today now =
            .ok ⟨[], [], now⟩ := rfl
        rw [hred] at h
        have hsnap := (Except.ok.inj h).symm
        subst hsnap
        exact ⟨fun k hk => absurd hk (List.not_mem_nil k),
          fun k hk => absurd hk (List.not_mem_nil k)⟩
  exact ⟨main.1, main.2, fun k hk => main.2 k (main.1 k hk)⟩

/-- Claim C10 witness: on the snapshot fetched from the sample refuse
record, the live-status key `"refuse"` is also a collections key and a
recognized type name. -/
theorem C10_key_invariants_witness :
    "refuse" ∈ dkeys sample_snapshot.collections ∧
      "refuse" ∈ COLLECTION_TYPES :=
  ⟨(C10_key_invariants (.ok (.withValue [sample_refuse])) sample_today
      sample_now sample_snapshot (by rfl)).1 "refuse" (by decide),
    (C10_key_invariants (.ok (.withValue [sample_refuse])) sample_today
      sample_now sample_snapshot (by rfl)).2.2 "refuse" (by decide)⟩

/-- Claim C5 counterexample: a record whose `hso_servicename` key holds
`null` is not dropped; `get_collection_data` fails with an uncaught
`AttributeError` (from `None.lower()`), which is not the transport error
`SouthGlosBinsAPIError`. -/
theorem C5_never_raises_counterexample :
    get_collection_data (.ok (.withValue [sample_null_name])) sample_today
        sample_now = .error .attributeError ∧
      ApiError.attributeError ≠ ApiError.southGlosBinsAPIError :=
  ⟨rfl, by decide⟩

theorem processServices_ok_iff (today : Date) :
    ∀ (l : List ServiceRecord) (cols : SDict CollectionInfo)
      (live : SDict LiveStatusInfo),
      (∃ r, processServices today l cols live = .ok r) ↔
        ∀ svc ∈ l, svc.hso_servicename ≠ some none := by
  intro l
  induction l with
  | nil =>
    intro cols live
    constructor
    · intro _ svc hsvc
      cases hsvc
    · intro _
      exact ⟨(cols, live), rfl⟩
  | cons svc rest ih =>
    intro cols live
    cases hn : svc.hso_servicename with
    | none =>
      have hname : jgetD svc.hso_servicename "" = some "" := by
        rw [hn]
        rfl
      have hmem : strLower "" ∉ COLLECTION_TYPES := by decide
      rw [processServices_cons_unrecognized hname hmem, ih cols live]
      simp [hn]
    | some osn =>
      cases osn with
      | none =>
        have hname : jgetD svc.hso_servicename "" = none := by
          rw [hn]
          rfl
        rw [processServices_cons_null hname]
        constructor
        · rintro ⟨r, hr⟩
          cases hr
        · intro hall
          exact absurd hn (by simpa using hall svc (List.mem_cons_self svc rest))
      | some s =>
        have hname : jgetD svc.hso_servicename "" = some s := by
          rw [hn]
          rfl
        by_cases hmem : strLower s ∈ COLLECTION_TYPES
        · rw [processServices_cons_recognized hname hmem, ih _ _]
          simp [hn]
        · rw [processServices_cons_unrecognized hname hmem, ih _ _]
          simp [hn]

/-- Claim C5 as amended: the fetch succeeds exactly when no record's name
field holds `null` (a missing name, a non-string-matching name and
malformed dates never raise; a present-but-`null` name raises the uncaught
`AttributeError` shown by the counterexample).  Malformed or empty date
strings degrade to `none` while the record is still stored; unrecognized
names are dropped silently; transport failure alone gives the wrapped
communication error. -/
theorem C5_amended_parse_robustness :
    (∀ (v : List ServiceRecord) (today : Date) (now : DateTime),
      (∃ snap, get_collection_data (.ok (.withValue v)) today now = .ok snap) ↔
        ∀ svc ∈ v, svc.hso_servicename ≠ some none) ∧
    (∀ (today : Date) (now : DateTime),
      get_collection_data (.ok (.withValue [sample_bad_dates])) today now =
        .ok { collections := [("recycling", build_info sample_bad_dates today)],
              live_status := [("recycling",
                { status := "In Progress", reason := none, source := none })],
              last_updated := now } ∧
      (build_info sample_bad_dates today).original_next_collection = none ∧
      (build_info sample_bad_dates today).last_collection = none ∧
      (build_info sample_bad_dates today).last_completed = none) ∧
    (∀ (svc : ServiceRecord) (today : Date) (now : DateTime) (s : String),
      svc.hso_servicename = some (some s) → strLower s ∉ COLLECTION_TYPES →
      get_collection_data (.ok (.withValue [svc])) today now = .ok ⟨[], [], now⟩) ∧
    (∀ (today : Date) (now : DateTime),
      get_collection_data (.clientError : RemoteResult CollectionsResponse)
        today now = .error .southGlosBinsAPIError) := by
  refine ⟨?_, ?_, ?_, fun today now => rfl⟩
  · intro v today now
    have hred : get_collection_data (.ok (.withValue v)) today now =
        match processServices today v [] [] with
        | .error e => .error e
        | .ok (c, l) => .ok ⟨c, l, now⟩ := rfl
    constructor
    · rintro ⟨snap, hsnap⟩
      refine (processServices_ok_iff today v [] []).mp ?_
      rw [hred] at hsnap
      cases hps : processServices today v [] [] with
      | error e => rw [hps] at hsnap; cases hsnap
      | ok r => exact ⟨r, rfl⟩
    · intro hall
      rcases (processServices_ok_iff today v [] []).mpr hall with ⟨⟨c, l⟩, hr⟩
      exact ⟨⟨c, l, now⟩, by rw [hred, hr]⟩
  · intro today now
    exact ⟨rfl, rfl, rfl, rfl⟩
  · intro svc today now s hname hmem
    have hn2 : jgetD svc.hso_servicename "" = some s := by
      rw [hname]
      rfl
    have hstep : processServices today [svc] [] [] =
        processServices today [] [] [] :=
      processServices_cons_unrecognized hn2 hmem
    have hred : get_collection_data (.ok (.withValue [svc])) today now =
        match processServices today [svc] [] [] with
        | .error e => .error e
        | .ok (c, l) => .ok ⟨c, l, now⟩ := rfl
    rw [hred, hstep]
    rfl

/-- Claim C5 witness: a record for an unrecognized service is dropped
silently, yielding a successful empty snapshot. -/
theorem C5_amended_parse_robustness_witness :
    get_collection_data (.ok (.withValue [sample_unknown])) sample_today
      sample_now = .ok ⟨[], [], sample_now⟩ :=
  C5_amended_parse_robustness.2.2.1 sample_unknown sample_today sample_now
    "Street Cleansing" rfl (by decide)

end SouthGlos
